import Mathlib

/-!
Verification development for the issue-resolver repository: a shallow
embedding of the session/log-streaming data model and of the frontend
service layer (apiService.ts, githubService, ChatPage), with theorems
settling the specification's claims about them.
-/

set_option maxHeartbeats 1000000

namespace IssueResolver

/-! ## JavaScript string primitives

These model the JavaScript string operations the source uses, over the
character list of a Lean `String`. -/

/-- JavaScript `s.startsWith(pre)`. -/
def strStartsWith (s pre : String) : Bool :=
  pre.data.isPrefixOf s.data

/-- Substring occurrence on character lists, for JavaScript `includes`. -/
def listIncludes (sub : List Char) : List Char → Bool
  | [] => sub.isEmpty
  | c :: rest => sub.isPrefixOf (c :: rest) || listIncludes sub rest

/-- JavaScript `s.includes(sub)`. -/
def strIncludes (s sub : String) : Bool :=
  listIncludes sub.data s.data

/-- JavaScript `a || b` on strings: the empty string is falsy, so `b` is
returned when `a` is empty. -/
def jsOrStr (a b : String) : String :=
  if a = "" then b else a

/-- JavaScript `a || b` where `a` may be `undefined` (modelled as `none`):
`b` is returned when `a` is absent or the empty string. -/
def jsOrOpt (a : Option String) (b : String) : String :=
  match a with
  | none => b
  | some s => if s = "" then b else s

/-! ## Data model (spec §3)

`LogEvent` and `Session` are the core data model.  The backend
implementation of the session / event-queue broker is not part of the
repository snapshot under verification, so those operations are modelled
from the specification (see the doc comments below); the frontend types
(`Issue`, `ProcessIssueResponse`, `WebSocketMessage`, ...) are translated
from the TypeScript source. -/

/-- Origin tag of a streamed log event (spec §3). -/
inductive Origin where
  | System
  | Agent
  | Error
deriving DecidableEq

/-- One ordered unit of streamed output (spec §3): content, origin tag and
the sequence number assigned at enqueue time. -/
structure LogEvent where
  content : String
  origin : Origin
  sequence : Nat
deriving DecidableEq

/-- Session lifecycle states (spec §3). -/
inductive SessionState where
  | Pending
  | Running
  | Completed
  | Failed
  | Closed
deriving DecidableEq

/-- The per-request state container (spec §3): lifecycle state plus the
append-only ordered event buffer. -/
structure Session where
  state : SessionState
  events : List LogEvent
deriving DecidableEq

/-- Modelled from the spec: §4.2 `append(event)` "assigns the next
`sequence` number, stores the event"; it "fails silently (no-op, logged)
if the session is already `Closed`".  The backend implementation of the
event queue is not under src, so this follows the specification's words:
sequence numbers start at 0 and increase by one per stored event. -/
def Session.append (s : Session) (content : String) (origin : Origin) : Session :=
  if s.state = SessionState.Closed then s
  else { s with events := s.events ++ [{ content := content, origin := origin, sequence := s.events.length }] }

/-- A sequence of `append` calls made by the producer, in order. -/
def Session.appendMany (s : Session) : List (String × Origin) → Session
  | [] => s
  | (c, o) :: rest => (s.append c o).appendMany rest

/-- Modelled from the spec: §4.2 `subscribe()` returns a cursor that
"first yields every already-buffered event in sequence order, then
suspends and yields new events as they are appended".  `attach` is the
session at the moment the subscriber attaches and `final` the session
after the producer's remaining appends; the cursor's delivered list is
the buffered history at attach time followed by the live tail. -/
def cursorYield (attach final : Session) : List LogEvent :=
  attach.events ++ final.events.drop attach.events.length

/-- Modelled from the spec: §4.4 step 5, "when the cursor ends (session
`Closed`), close the connection with a normal-closure reason"; the
WebSocket normal-closure code is 1000 (apiService.ts comments on code
1000 being normal closure).  Returns the transport close code the
Streaming Gateway uses, `none` while the session is still open. -/
def gatewayCloseCode (s : Session) : Option Nat :=
  if s.state = SessionState.Closed then some 1000 else none

/-! ## Frontend data types (IssueCard.tsx, apiService.ts, ChatPage.tsx) -/

/-- The `user` field of the frontend `Issue` interface (IssueCard.tsx). -/
structure IssueUser where
  login : String
  avatar_url : String
deriving DecidableEq

/-- The frontend `Issue` interface (IssueCard.tsx).  The interface
declares `user` as always present, but `processIssueWithAgent` guards it
with optional chaining (`issue.user?.login`), so it is modelled as an
`Option` to capture the runtime check. -/
structure Issue where
  id : Nat
  title : String
  body : String
  number : Nat
  html_url : String
  user : Option IssueUser
  created_at : String
deriving DecidableEq

/-- The backend's expected `IssueDetail` shape built inside
`processIssueWithAgent` (apiService.ts). -/
structure IssueDetail where
  title : String
  description : String
  creator_name : String
  status : String
  url : String
deriving DecidableEq

/-- The response of the submit-for-processing endpoint as declared in
apiService.ts (`ProcessIssueResponse`): a text message and the session
token (`client_id`). -/
structure ProcessIssueResponse where
  message : String
  client_id : String
deriving DecidableEq

/-- The `WebSocketMessage` shape of apiService.ts; the `Date` timestamp is
modelled as a number supplied by the caller. -/
structure WebSocketMessage where
  content : String
  timestamp : Nat
  isAgent : Bool
deriving DecidableEq

/-- The `Message` shape of ChatPage.tsx. -/
structure Message where
  id : String
  content : String
  isUser : Bool
  timestamp : Nat
deriving DecidableEq

/-- Result shape of `askBotToResolve` (githubService): `clientId` is
optional and absent on failure. -/
structure BotResult where
  success : Bool
  message : String
  clientId : Option String
deriving DecidableEq

/-- A JavaScript thrown value as observed by a `catch` clause: either an
`Error` carrying a message, or any other value. -/
inductive JsError where
  | errorVal (msg : String)
  | nonError
deriving DecidableEq

/-! ## apiService.ts operations -/

/-- The `issueDetail` record built inside `processIssueWithAgent`
(apiService.ts lines 29-35): `title: issue.title`,
`description: issue.body`, `creator_name: issue.user?.login || 'Unknown'`,
`status: 'open'`, `url: issue.html_url`. -/
def issueDetail (issue : Issue) : IssueDetail :=
  { title := issue.title
    description := issue.body
    creator_name :=
      match issue.user with
      | none => "Unknown"
      | some u => jsOrStr u.login "Unknown"
    status := "open"
    url := issue.html_url }

/-- The WebSocket URL construction of `createAgentWebSocket`
(apiService.ts lines 76-94).  `wsBaseUrl` is the configured
`WS_BASE_URL`, `pageProtocol` is `window.location.protocol` and `host` is
`window.location.host`. -/
def createAgentWebSocketUrl (wsBaseUrl pageProtocol host clientId : String) : String :=
  if strStartsWith wsBaseUrl "/" then
    (if pageProtocol = "https:" then "wss:" else "ws:") ++ "//" ++ host ++ wsBaseUrl ++ "/issue-logs/" ++ clientId
  else
    wsBaseUrl ++ "/issue-logs/" ++ clientId

/-- The `socket.onmessage` handler of `createAgentWebSocket`
(apiService.ts lines 100-113): builds a `WebSocketMessage` whose
`isAgent` flag is `text.startsWith('AGENT:')`. -/
def socketOnMessage (now : Nat) (text : String) : WebSocketMessage :=
  { content := text
    timestamp := now
    isAgent := strStartsWith text "AGENT:" }

/-- The `onMessage` callback of ChatPage.tsx (lines 102-114): converts a
`WebSocketMessage` to a chat `Message`, with `isUser := !isAgent`. -/
def chatOnMessage (newId : String) (m : WebSocketMessage) : Message :=
  { id := newId
    content := m.content
    isUser := !m.isAgent
    timestamp := m.timestamp }

/-- The flex-justification class ChatPage.tsx picks per message
(`message.isUser ? 'justify-end' : 'justify-start'`), the rendering
distinction between agent and user bubbles. -/
def renderJustify (m : Message) : String :=
  if m.isUser then "justify-end" else "justify-start"

/-- The `socket.onclose` handler of `createAgentWebSocket`
(apiService.ts lines 124-134): delivers one synthetic message to the
consumer exactly when the close code is not 1000 (normal closure). -/
def socketOnClose (now : Nat) (code : Nat) : Option WebSocketMessage :=
  if code ≠ 1000 then
    some { content := "Connection to agent closed. The analysis may be complete."
           timestamp := now
           isAgent := true }
  else none

/-! ## githubService operations -/

/-- The message a `catch (error)` clause extracts:
`error instanceof Error ? error.message : '...'` with the fixed
unknown-error text of `askBotToResolve`. -/
def errorMessageOf : JsError → String
  | JsError.errorVal m => m
  | JsError.nonError => "An unknown error occurred while processing the issue"

/-- `askBotToResolve` (githubService lines 139-158), with the outcome of
the awaited `processIssueWithAgent` call passed explicitly: on resolve it
returns success with the backend's `client_id` as `clientId`; on reject
it catches the error and returns failure with the error's message. -/
def askBotToResolve (issue : Issue) (outcome : Except JsError ProcessIssueResponse) : BotResult :=
  match outcome with
  | Except.ok response =>
      { success := true
        message := "Bot is analyzing issue #" ++ toString issue.number ++ ": " ++ issue.title
        clientId := some response.client_id }
  | Except.error e =>
      { success := false
        message := errorMessageOf e
        clientId := none }

/-! ## URL parsing (githubService `extractRepoInfo` / `fetchGitHubIssues`)

`extractRepoInfo` relies on the browser's `new URL(...).pathname`.  The
model below implements the pathname of an absolute `http`/`https` URL:
skip the scheme, skip the authority up to the first `/`, `?` or `#`, and
keep the path up to a `?` or `#` (defaulting to `/` when the URL has no
path).  Dot-segment normalization and percent-encoding are not modelled;
a string without an `http`/`https` scheme makes `new URL` throw, which the
source catches and turns into `null` (here `none`). -/

/-- Pathname of the part of a URL following its `http(s)://` scheme. -/
def pathnameFrom (rest : List Char) : List Char :=
  match rest.dropWhile (fun c => !(c = '/' || c = '?' || c = '#')) with
  | '/' :: tail => '/' :: tail.takeWhile (fun c => !(c = '?' || c = '#'))
  | _ => ['/']

/-- `new URL(url).pathname` for absolute `http(s)` URLs; `none` models the
constructor throwing on a scheme-less string. -/
def urlPathname (url : String) : Option (List Char) :=
  if strStartsWith url "https://" then some (pathnameFrom (url.data.drop 8))
  else if strStartsWith url "http://" then some (pathnameFrom (url.data.drop 7))
  else none

/-- JavaScript `pathname.split('/')`. -/
def splitOnSlash : List Char → List (List Char)
  | [] => [[]]
  | c :: rest =>
    if c = '/' then [] :: splitOnSlash rest
    else
      match splitOnSlash rest with
      | [] => [[c]]
      | s :: ss => (c :: s) :: ss

/-- `pathname.split('/').filter(Boolean)`: the non-empty path segments. -/
def pathSegments (pathname : List Char) : List (List Char) :=
  (splitOnSlash pathname).filter (fun s => !s.isEmpty)

/-- The non-empty path segments of a URL, `none` when URL parsing throws;
this is the quantity `extractRepoInfo` inspects. -/
def pathParts (url : String) : Option (List (List Char)) :=
  (urlPathname url).map pathSegments

/-- `extractRepoInfo` (githubService lines 5-30): normalize a URL not
containing `github.com` by prefixing `https://github.com/`, parse it, and
take the first two non-empty path segments as owner and repo; `null`
(`none`) when parsing throws or fewer than two segments exist.
`normalizedRepoUrl` is the `normalizedUrl` binding at its top. -/
def normalizedRepoUrl (url : String) : String :=
  if strIncludes url "github.com" then url else "https://github.com/" ++ url

/-- The remainder of `extractRepoInfo`: parse the normalized URL and take
the first two non-empty path segments. -/
def extractRepoInfo (url : String) : Option (String × String) :=
  match urlPathname (normalizedRepoUrl url) with
  | none => none
  | some pathname =>
    match pathSegments pathname with
    | owner :: repo :: _ => some (⟨owner⟩, ⟨repo⟩)
    | _ => none

/-- The URL formatting at the top of `fetchGitHubIssues` (lines 37-40):
prefix `https://` when the input does not start with `http`. -/
def formatUrl (repoUrl : String) : String :=
  if strStartsWith repoUrl "http" then repoUrl else "https://" ++ repoUrl

/-- The validation phase of `fetchGitHubIssues` (lines 44-54), which runs
before any backend request: `Except.error` is the error thrown when
`extractRepoInfo` returns `null`, `Except.ok` is the clean repo URL the
subsequent backend request carries in `repo_url`. -/
def fetchIssuesRequest (repoUrl : String) : Except String String :=
  match extractRepoInfo (formatUrl repoUrl) with
  | none => Except.error "Invalid GitHub repository URL format"
  | some (owner, repo) => Except.ok ("https://github.com/" ++ owner ++ "/" ++ repo)

/-! ## Backend response adaptation (`fetchGitHubIssues` lines 100-125) -/

/-- One issue record of the backend's `fetch-issues` response body; fields
the adapter reads with a `||` default are modelled as `Option` (absent)
with the empty string still falsy. -/
structure BackendIssue where
  title : Option String
  description : Option String
  url : String
  creator_name : Option String
deriving DecidableEq

/-- The per-issue adapter inside `data.issues.map((backendIssue, index) =>
...)`: synthetic `id`/`number` from the index, `||` defaults for title,
body and creator, current date (`now`) as `created_at`. -/
def adaptIssue (now : String) (index : Nat) (b : BackendIssue) : Issue :=
  { id := index + 1
    number := index + 1
    title := jsOrOpt b.title "Untitled Issue"
    body := jsOrOpt b.description ""
    html_url := b.url
    created_at := now
    user := some { login := jsOrOpt b.creator_name "Unknown User"
                   avatar_url := "https://github.githubassets.com/images/modules/logos_page/GitHub-Mark.png" } }

/-- `data.issues.map` with its running index, starting at `index`. -/
def adaptIssuesFrom (now : String) (index : Nat) : List BackendIssue → List Issue
  | [] => []
  | b :: rest => adaptIssue now index b :: adaptIssuesFrom now (index + 1) rest

/-- The response handling of `fetchGitHubIssues`: the outer `Option` is
the truthiness of `data`, the inner one whether `data.issues` is an
array; any other shape falls to the `else` branch returning `[]`. -/
def adaptResponse (now : String) : Option (Option (List BackendIssue)) → List Issue
  | some (some issues) => adaptIssuesFrom now 0 issues
  | _ => []

/-- The events produced by consecutive appends starting at sequence `n`:
helper for reasoning about `Session.appendMany`. -/
def seqFrom (n : Nat) : List (String × Origin) → List LogEvent
  | [] => []
  | (c, o) :: rest => { content := c, origin := o, sequence := n } :: seqFrom (n + 1) rest

/-! ## Theorems -/

theorem Session.append_state (s : Session) (c : String) (o : Origin) :
    (s.append c o).state = s.state := by
  unfold Session.append
  split <;> rfl

theorem Session.appendMany_events :
    ∀ (items : List (String × Origin)) (s : Session), s.state ≠ SessionState.Closed →
      (s.appendMany items).events = s.events ++ seqFrom s.events.length items := by
  intro items
  induction items with
  | nil => intro s _; simp [Session.appendMany, seqFrom]
  | cons p rest ih =>
    intro s hs
    obtain ⟨c, o⟩ := p
    have hne : (s.append c o).state ≠ SessionState.Closed := by
      rw [Session.append_state]; exact hs
    have happ : (s.append c o).events
        = s.events ++ [{ content := c, origin := o, sequence := s.events.length }] := by
      unfold Session.append
      rw [if_neg hs]
    rw [Session.appendMany, ih _ hne, happ]
    simp [seqFrom]

theorem seqFrom_map_pair (n : Nat) (items : List (String × Origin)) :
    (seqFrom n items).map (fun e => (e.content, e.origin)) = items := by
  induction items generalizing n with
  | nil => rfl
  | cons p rest ih =>
    obtain ⟨c, o⟩ := p
    simp [seqFrom, ih]

theorem seqFrom_map_seq (n : Nat) (items : List (String × Origin)) :
    (seqFrom n items).map LogEvent.sequence = List.range' n items.length := by
  induction items generalizing n with
  | nil => rfl
  | cons p rest ih =>
    obtain ⟨c, o⟩ := p
    simp [seqFrom, ih, List.range'_succ]

theorem seqFrom_append (n : Nat) (a b : List (String × Origin)) :
    seqFrom n (a ++ b) = seqFrom n a ++ seqFrom (n + a.length) b := by
  induction a generalizing n with
  | nil => simp [seqFrom]
  | cons p rest ih =>
    obtain ⟨c, o⟩ := p
    simp only [List.cons_append, seqFrom, List.length_cons]
    rw [show n + (rest.length + 1) = n + 1 + rest.length by omega, ← ih]
    rfl

/-- C1: for every sequence of `append` calls on one session and every
attach point `k`, the cursor from `subscribe()` yields exactly the
appended events: content/origin pairs equal the appended sequence, the
delivered sequence numbers are exactly `0..n-1` (no gaps, no duplicates)
in non-decreasing order, and the late-attaching subscriber's buffered
history is a prefix of the delivered stream, seen in full before any live
event. -/
theorem subscribe_cursor_spec (s0 : Session) (items : List (String × Origin)) (k : Nat)
    (h0 : s0.events = []) (hs : s0.state ≠ SessionState.Closed) :
    cursorYield (s0.appendMany (items.take k)) (s0.appendMany items) = (s0.appendMany items).events
    ∧ (s0.appendMany items).events.map (fun e => (e.content, e.origin)) = items
    ∧ (s0.appendMany items).events.map LogEvent.sequence = List.range items.length
    ∧ List.Chain' (· ≤ ·)
        ((cursorYield (s0.appendMany (items.take k)) (s0.appendMany items)).map LogEvent.sequence)
    ∧ ((cursorYield (s0.appendMany (items.take k)) (s0.appendMany items)).map LogEvent.sequence).Nodup
    ∧ (s0.appendMany (items.take k)).events <+: (s0.appendMany items).events := by
  have hfin : (s0.appendMany items).events = seqFrom 0 items := by
    rw [Session.appendMany_events items s0 hs, h0]
    rfl
  have hat : (s0.appendMany (items.take k)).events = seqFrom 0 (items.take k) := by
    rw [Session.appendMany_events (items.take k) s0 hs, h0]
    rfl
  have hsplit : seqFrom 0 items
      = seqFrom 0 (items.take k) ++ seqFrom (0 + (items.take k).length) (items.drop k) := by
    conv_lhs => rw [← List.take_append_drop k items]
    exact seqFrom_append 0 _ _
  have hpre : (s0.appendMany (items.take k)).events <+: (s0.appendMany items).events := by
    rw [hfin, hat, hsplit]
    exact ⟨_, rfl⟩
  have hyield : cursorYield (s0.appendMany (items.take k)) (s0.appendMany items)
      = (s0.appendMany items).events := by
    obtain ⟨t, ht⟩ := hpre
    unfold cursorYield
    rw [← ht, List.drop_left]
  have hmseq : (s0.appendMany items).events.map LogEvent.sequence = List.range items.length := by
    rw [hfin, seqFrom_map_seq, List.range_eq_range']
  have hchain : List.Chain' (· ≤ ·) (List.range items.length) :=
    List.Pairwise.chain' ((List.pairwise_lt_range items.length).imp fun h => le_of_lt h)
  refine ⟨hyield, ?_, hmseq, ?_, ?_, hpre⟩
  · rw [hfin, seqFrom_map_pair]
  · rw [hyield, hmseq]; exact hchain
  · rw [hyield, hmseq]; exact List.nodup_range _

/-- Witness for C1: two appends on a running session, subscriber
attaching after the first; the stored sequences are exactly `0, 1`. -/
theorem subscribe_cursor_spec_witness :
    (Session.appendMany { state := SessionState.Running, events := [] }
        [("starting analysis", Origin.System), ("done", Origin.Agent)]).events.map LogEvent.sequence
      = List.range 2 :=
  (subscribe_cursor_spec { state := SessionState.Running, events := [] }
      [("starting analysis", Origin.System), ("done", Origin.Agent)] 1 rfl (by decide)).2.2.1

/-- C2: every text frame delivered on the stream connection is classified
as Agent-origin exactly when its content begins with `AGENT:`, and this
`isAgent` flag is what ChatPage's message consumer uses (via
`isUser := !isAgent`) to render Agent-origin frames on the opposite side
from user content. -/
theorem agent_frame_classification (now : Nat) (text newId : String) :
    (socketOnMessage now text).isAgent = strStartsWith text "AGENT:"
    ∧ (chatOnMessage newId (socketOnMessage now text)).isUser = !(strStartsWith text "AGENT:")
    ∧ renderJustify (chatOnMessage newId (socketOnMessage now text))
        = (if strStartsWith text "AGENT:" then "justify-start" else "justify-end") := by
  refine ⟨rfl, rfl, ?_⟩
  cases h : strStartsWith text "AGENT:" <;>
    simp [renderJustify, chatOnMessage, socketOnMessage, h]

/-- C3: submitting an issue for processing yields a response of a text
message and the session token (`ProcessIssueResponse`), and
`askBotToResolve` returns that same token as `clientId` on success, while
a failed submission yields `success = false` with no token. -/
theorem processIssue_response_spec (issue : Issue) (outcome : Except JsError ProcessIssueResponse) :
    (∀ r : ProcessIssueResponse, outcome = Except.ok r →
      askBotToResolve issue outcome
        = { success := true
            message := "Bot is analyzing issue #" ++ toString issue.number ++ ": " ++ issue.title
            clientId := some r.client_id })
    ∧ (∀ e : JsError, outcome = Except.error e →
        (askBotToResolve issue outcome).success = false
        ∧ (askBotToResolve issue outcome).clientId = none) := by
  constructor
  · intro r hr; subst hr; rfl
  · intro e he; subst he; exact ⟨rfl, rfl⟩

/-- Witness for C3 at a concrete issue and a concrete resolved response. -/
theorem processIssue_response_spec_witness :
    askBotToResolve
        { id := 1, title := "T", body := "B", number := 7, html_url := "H"
          user := some { login := "alice", avatar_url := "av" }, created_at := "D" }
        (Except.ok { message := "Issue processing started", client_id := "tok42" })
      = { success := true
          message := "Bot is analyzing issue #" ++ toString (7 : Nat) ++ ": " ++ "T"
          clientId := some "tok42" } :=
  (processIssue_response_spec
      { id := 1, title := "T", body := "B", number := 7, html_url := "H"
        user := some { login := "alice", avatar_url := "av" }, created_at := "D" }
      (Except.ok { message := "Issue processing started", client_id := "tok42" })).1
    { message := "Issue processing started", client_id := "tok42" } rfl

/-- C8: `askBotToResolve` is total over the submission outcome: a resolved
call maps to success with the backend's `client_id`, a rejected call is
caught and mapped to failure carrying the error's message, with a fixed
unknown-error text for non-`Error` values; no case propagates the
exception. -/
theorem askBotToResolve_total_spec (issue : Issue) :
    (∀ r : ProcessIssueResponse,
      askBotToResolve issue (Except.ok r)
        = { success := true
            message := "Bot is analyzing issue #" ++ toString issue.number ++ ": " ++ issue.title
            clientId := some r.client_id })
    ∧ (∀ m : String,
        askBotToResolve issue (Except.error (JsError.errorVal m))
          = { success := false, message := m, clientId := none })
    ∧ askBotToResolve issue (Except.error JsError.nonError)
        = { success := false
            message := "An unknown error occurred while processing the issue"
            clientId := none } :=
  ⟨fun _ => rfl, fun _ => rfl, rfl⟩

/-- C4: after a session has transitioned to `Closed`, `append` is a
no-op: the session (hence its stored event count and event sequence) is
unchanged, and `append` is a total function, raising nothing to the
producer. -/
theorem append_closed_noop (s : Session) (c : String) (o : Origin)
    (h : s.state = SessionState.Closed) :
    s.append c o = s
    ∧ (s.append c o).events.length = s.events.length
    ∧ (s.append c o).events = s.events := by
  have hnoop : s.append c o = s := by
    unfold Session.append
    rw [if_pos h]
  exact ⟨hnoop, by rw [hnoop], by rw [hnoop]⟩

/-- Witness for C4 on a concrete closed session. -/
theorem append_closed_noop_witness :
    Session.append { state := SessionState.Closed, events := [] } "late event" Origin.Agent
      = { state := SessionState.Closed, events := [] } :=
  (append_closed_noop { state := SessionState.Closed, events := [] } "late event" Origin.Agent rfl).1

/-- C5: when the session reaches `Closed` the Streaming Gateway closes the
connection with the WebSocket normal-closure code 1000 (modelled from the
spec, §4.4 step 5), and the client's `onclose` handler delivers a
synthetic connection-closed message to the consumer exactly when the
close code is not 1000. -/
theorem close_code_spec (s : Session) (now code : Nat) :
    (s.state = SessionState.Closed → gatewayCloseCode s = some 1000)
    ∧ ((∃ m, socketOnClose now code = some m) ↔ code ≠ 1000) := by
  constructor
  · intro h
    simp [gatewayCloseCode, h]
  · by_cases hc : code = 1000 <;> simp [socketOnClose, hc]

/-- Witness for C5: a closed session closes with code 1000; an abnormal
code 1006 produces the synthetic message. -/
theorem close_code_spec_witness :
    gatewayCloseCode { state := SessionState.Closed, events := [] } = some 1000
    ∧ ((∃ m, socketOnClose 0 1006 = some m) ↔ 1006 ≠ 1000) :=
  ⟨(close_code_spec { state := SessionState.Closed, events := [] } 0 1006).1 rfl,
   (close_code_spec { state := SessionState.Closed, events := [] } 0 1006).2⟩

/-- C6: the WebSocket URL built by `createAgentWebSocket` always ends
with `/issue-logs/` followed by exactly the given `clientId`, and when the
configured base is path-relative (starts with `/`) the scheme is `wss:`
exactly when the page protocol is `https:`. -/
theorem createAgentWebSocketUrl_spec (wsBaseUrl pageProtocol host clientId : String) :
    ("/issue-logs/" ++ clientId).data <:+ (createAgentWebSocketUrl wsBaseUrl pageProtocol host clientId).data
    ∧ (strStartsWith wsBaseUrl "/" = true →
        (("wss:".data <+: (createAgentWebSocketUrl wsBaseUrl pageProtocol host clientId).data)
          ↔ pageProtocol = "https:")) := by
  unfold createAgentWebSocketUrl
  by_cases hb : strStartsWith wsBaseUrl "/" = true
  · simp only [hb, if_true]
    by_cases hp : pageProtocol = "https:"
    · rw [if_pos hp]
      constructor
      · exact ⟨("wss:" ++ "//" ++ host ++ wsBaseUrl).data,
          by simp [String.data_append, List.append_assoc]⟩
      · intro _
        simp only [hp, iff_true]
        exact ⟨("//" ++ host ++ wsBaseUrl ++ "/issue-logs/" ++ clientId).data,
          by simp [String.data_append, List.append_assoc]⟩
    · rw [if_neg hp]
      constructor
      · exact ⟨("ws:" ++ "//" ++ host ++ wsBaseUrl).data,
          by simp [String.data_append, List.append_assoc]⟩
      · intro _
        simp only [hp, iff_false]
        intro hpre
        obtain ⟨t, ht⟩ := hpre
        have hdata : (("ws:" ++ "//" ++ host ++ wsBaseUrl ++ "/issue-logs/" ++ clientId)).data
            = 'w' :: 's' :: ':' :: '/' :: '/' ::
                (host.data ++ (wsBaseUrl.data ++ ("/issue-logs/".data ++ clientId.data))) := by
          simp [String.data_append, List.append_assoc]
        rw [hdata] at ht
        simp only [List.cons_append, List.nil_append, List.cons.injEq] at ht
        exact absurd ht.2.2.1 (by decide)
  · simp only [hb, if_false]
    constructor
    · exact ⟨wsBaseUrl.data, by simp [String.data_append, List.append_assoc]⟩
    · intro h
      simp at h

/-- Witness for C6 with a path-relative base on an https page. -/
theorem createAgentWebSocketUrl_spec_witness :
    ("/issue-logs/" ++ "abc123").data <:+ (createAgentWebSocketUrl "/ws" "https:" "example.com" "abc123").data
    ∧ ("wss:".data <+: (createAgentWebSocketUrl "/ws" "https:" "example.com" "abc123").data
        ↔ ("https:" : String) = "https:") :=
  ⟨(createAgentWebSocketUrl_spec "/ws" "https:" "example.com" "abc123").1,
   (createAgentWebSocketUrl_spec "/ws" "https:" "example.com" "abc123").2 (by decide)⟩

/-- C7 counterexample: for an issue whose user login is present but
empty, the submission record substitutes `"Unknown"` even though the
login is not absent, so `creator_name` differs from `issue.user.login`;
the substitution is not limited to an absent login. -/
theorem issueDetail_creator_cex :
    (issueDetail { id := 1, title := "t", body := "b", number := 1, html_url := "h"
                   user := some { login := "", avatar_url := "a" }, created_at := "c" }).creator_name
      = "Unknown"
    ∧ ("Unknown" : String) ≠ "" := by
  constructor
  · rfl
  · decide

/-- C7 (amended): the submission record carries `title`, `description`
and `url` unmodified from the issue, and `creator_name` equals the user's
login, with `"Unknown"` substituted when the user is absent or the login
is the empty string. -/
theorem issueDetail_spec (issue : Issue) :
    (issueDetail issue).title = issue.title
    ∧ (issueDetail issue).description = issue.body
    ∧ (issueDetail issue).url = issue.html_url
    ∧ (issue.user = none → (issueDetail issue).creator_name = "Unknown")
    ∧ (∀ u : IssueUser, issue.user = some u → u.login ≠ "" → (issueDetail issue).creator_name = u.login)
    ∧ (∀ u : IssueUser, issue.user = some u → u.login = "" → (issueDetail issue).creator_name = "Unknown") := by
  refine ⟨rfl, rfl, rfl, ?_, ?_, ?_⟩
  · intro h
    simp [issueDetail, h]
  · intro u hu hne
    simp [issueDetail, hu, jsOrStr, hne]
  · intro u hu he
    simp [issueDetail, hu, jsOrStr, he]

/-- Witness for C7 (amended) on a concrete issue with a non-empty login. -/
theorem issueDetail_spec_witness :
    (issueDetail { id := 1, title := "T", body := "B", number := 2, html_url := "H"
                   user := some { login := "alice", avatar_url := "a" }, created_at := "c" }).creator_name
      = "alice" :=
  (issueDetail_spec
      { id := 1, title := "T", body := "B", number := 2, html_url := "H"
        user := some { login := "alice", avatar_url := "a" }, created_at := "c" }).2.2.2.2.1
    { login := "alice", avatar_url := "a" } rfl (by decide)

/-- C9 counterexample: `https://example.com` has zero path segments, yet
`fetchGitHubIssues` does not throw: a URL not containing `github.com` is
re-rooted under `https://github.com/`, which gives the reinterpreted URL
two path segments (`https:` and `example.com`), so the validation
succeeds and a backend request is issued with that reinterpreted URL. -/
theorem fetchIssues_nonGithub_cex :
    pathParts (formatUrl "https://example.com") = some []
    ∧ fetchIssuesRequest "https://example.com" = Except.ok "https://github.com/https:/example.com"
    ∧ (Except.ok "https://github.com/https:/example.com"
        ≠ (Except.error "Invalid GitHub repository URL format" : Except String String)) := by
  refine ⟨by decide, rfl, ?_⟩
  intro h
  exact Except.noConfusion h

theorem extractRepoInfo_eq_of_includes (url : String)
    (h : strIncludes url "github.com" = true) :
    extractRepoInfo url
      = match pathParts url with
        | some (owner :: repo :: _) => some (⟨owner⟩, ⟨repo⟩)
        | _ => none := by
  have hn : normalizedRepoUrl url = url := by
    unfold normalizedRepoUrl
    rw [if_pos h]
  unfold extractRepoInfo pathParts
  rw [hn]
  cases hu : urlPathname url with
  | none => rfl
  | some pathname =>
    cases hseg : pathSegments pathname with
    | nil => simp only [Option.map_some', hseg]
    | cons owner rest =>
      cases rest with
      | nil => simp only [Option.map_some', hseg]
      | cons repo rest2 => simp only [Option.map_some', hseg]

/-- C9 (amended): for every URL containing `github.com` whose path has at
least two segments, `extractRepoInfo` returns the first two segments as
owner and repo, ignoring trailing segments; and for every URL containing
`github.com` (after the `https://` formatting step) whose path has fewer
than two segments, `fetchGitHubIssues` throws
`Invalid GitHub repository URL format` before issuing any backend
request.  (A URL not containing `github.com` is instead reinterpreted as
a path under `github.com`, see the counterexample.) -/
theorem extractRepoInfo_spec :
    (∀ (url : String) (owner repo : List Char) (rest : List (List Char)),
        strIncludes url "github.com" = true →
        pathParts url = some (owner :: repo :: rest) →
        extractRepoInfo url = some (⟨owner⟩, ⟨repo⟩))
    ∧ (∀ (repoUrl : String) (parts : List (List Char)),
        strIncludes (formatUrl repoUrl) "github.com" = true →
        pathParts (formatUrl repoUrl) = some parts →
        parts.length < 2 →
        fetchIssuesRequest repoUrl = Except.error "Invalid GitHub repository URL format") := by
  constructor
  · intro url owner repo rest hinc hpp
    have h := extractRepoInfo_eq_of_includes url hinc
    rw [hpp] at h
    exact h
  · intro repoUrl parts hinc hpp hlen
    have h := extractRepoInfo_eq_of_includes (formatUrl repoUrl) hinc
    rw [hpp] at h
    unfold fetchIssuesRequest
    cases parts with
    | nil =>
      rw [h]
    | cons a rest =>
      cases rest with
      | nil => rw [h]
      | cons b rest2 =>
        exfalso
        simp only [List.length_cons] at hlen
        omega

/-- Witness for C9 (amended): a repo URL with a trailing `/issues`
segment parses to its first two segments, and a `github.com` URL with no
path segments is rejected before any request. -/
theorem extractRepoInfo_spec_witness :
    extractRepoInfo "https://github.com/facebook/react/issues"
      = some (⟨"facebook".data⟩, ⟨"react".data⟩)
    ∧ fetchIssuesRequest "https://github.com" = Except.error "Invalid GitHub repository URL format" :=
  ⟨extractRepoInfo_spec.1 "https://github.com/facebook/react/issues"
      "facebook".data "react".data ["issues".data] (by decide) (by decide),
   extractRepoInfo_spec.2 "https://github.com" [] (by decide) (by decide) (by decide)⟩

theorem adaptIssuesFrom_length (now : String) :
    ∀ (bs : List BackendIssue) (s : Nat), (adaptIssuesFrom now s bs).length = bs.length := by
  intro bs
  induction bs with
  | nil => intro s; rfl
  | cons b rest ih =>
    intro s
    simp [adaptIssuesFrom, ih]

theorem adaptIssuesFrom_getElem (now : String) :
    ∀ (bs : List BackendIssue) (s i : Nat),
      (adaptIssuesFrom now s bs)[i]? = bs[i]?.map (fun b => adaptIssue now (s + i) b) := by
  intro bs
  induction bs with
  | nil => intro s i; simp [adaptIssuesFrom]
  | cons b rest ih =>
    intro s i
    cases i with
    | zero => simp [adaptIssuesFrom]
    | succ j =>
      simp only [adaptIssuesFrom, List.getElem?_cons_succ, ih (s + 1) j]
      rw [show s + (j + 1) = s + 1 + j by omega]

/-- C10 (amended): a backend response whose body holds an issues array of
length N adapts to exactly N issues, the i-th (0-based) getting synthetic
`id` and `number` equal to `i + 1`, `title` defaulting to
`Untitled Issue` when absent or empty, and `body` defaulting to the empty
string when absent; a successful response without such an array adapts to
the empty list rather than throwing. -/
theorem fetchGitHubIssues_adapt_spec (now : String) (bs : List BackendIssue) (i : Nat) :
    (adaptResponse now (some (some bs))).length = bs.length
    ∧ (adaptResponse now (some (some bs)))[i]?.map Issue.id = bs[i]?.map (fun _ => i + 1)
    ∧ (adaptResponse now (some (some bs)))[i]?.map Issue.number = bs[i]?.map (fun _ => i + 1)
    ∧ (adaptResponse now (some (some bs)))[i]?.map Issue.title
        = bs[i]?.map (fun b =>
            match b.title with
            | none => "Untitled Issue"
            | some t => if t = "" then "Untitled Issue" else t)
    ∧ (adaptResponse now (some (some bs)))[i]?.map Issue.body
        = bs[i]?.map (fun b => b.description.getD "")
    ∧ adaptResponse now none = []
    ∧ adaptResponse now (some none) = [] := by
  have hget : (adaptResponse now (some (some bs)))[i]?
      = bs[i]?.map (fun b => adaptIssue now i b) := by
    have h := adaptIssuesFrom_getElem now bs 0 i
    simpa [adaptResponse] using h
  refine ⟨?_, ?_, ?_, ?_, ?_, rfl, rfl⟩
  · exact adaptIssuesFrom_length now bs 0
  · rw [hget]
    cases bs[i]? with
    | none => rfl
    | some b => rfl
  · rw [hget]
    cases bs[i]? with
    | none => rfl
    | some b => rfl
  · rw [hget]
    cases bs[i]? with
    | none => rfl
    | some b =>
      simp only [Option.map_some']
      cases hb : b.title with
      | none => simp [adaptIssue, jsOrOpt, hb]
      | some t => simp [adaptIssue, jsOrOpt, hb]
  · rw [hget]
    cases bs[i]? with
    | none => rfl
    | some b =>
      simp only [Option.map_some']
      cases hb : b.description with
      | none => simp [adaptIssue, jsOrOpt, hb]
      | some d =>
        by_cases hd : d = "" <;> simp [adaptIssue, jsOrOpt, hb, hd]

/-- C10 counterexample: a backend issue whose `title` is present but
empty is adapted to `Untitled Issue`; the default is not applied only
when the title is absent, so the adapted title differs from the present
backend title. -/
theorem fetchGitHubIssues_title_cex :
    (adaptResponse "2025-01-01"
        (some (some [{ title := some "", description := none, url := "u", creator_name := none }]))).map
        Issue.title
      = ["Untitled Issue"]
    ∧ ("Untitled Issue" : String) ≠ "" := by
  constructor
  · rfl
  · decide

end IssueResolver
